import Mathlib

/-
Verification of the scoring logic and orchestration protocol of the
SelfCheck-MQAG module (selfcheckgpt/modeling_mqag.py).

Modelling choices:
* Probabilities and answerability scores are rationals (ℚ), standing for the
  Python floats; the bayes-with-alpha score, whose exponents are real-valued
  soft counts, lives in ℝ with real exponentiation (Real.rpow).
* numpy arrays indexed by the sample number are functions ℕ → _ together with
  an explicit num_samples bound, mirroring the `for s in range(num_samples)`
  loops of the source.
* The four pretrained inference services (question generation, distractor
  generation, answering, answerability) are opaque collaborators and enter as
  oracle parameters.  For the distractor stage the oracle stands for the
  decoded generation after the sentinel-token regex normalisation (a
  tokenizer-plumbing step); the pad/eos stripping, separator split and trim
  done by the repository code are modelled explicitly.
* np.mean of a list of scores is `Option ℝ`: `none` models the NaN produced
  by np.mean on an empty list.
-/

namespace SelfCheckMQAG

/-- First index of a maximal entry of a list, mirroring np.argmax: scanning
left to right, a later index wins only on a strictly larger value, so ties
resolve to the earliest index. -/
def argmax (l : List ℚ) : ℕ :=
  (List.range l.length).foldl
    (fun best i => if l.getD best 0 < l.getD i 0 then i else best) 0

/-- The accumulation loop of `method_simple_counting`
(`for s in range(num_samples)`): first component counts samples with
`u_score_s[s] >= AT` (count_good_sample), second counts those among them whose
argmax agrees with `a_DT` (count_match). -/
def loopSC (a_DT : ℕ) (prob_s : ℕ → List ℚ) (u_score_s : ℕ → ℚ) (AT : ℚ) :
    ℕ → ℕ × ℕ
  | 0 => (0, 0)
  | s + 1 =>
    let c := loopSC a_DT prob_s u_score_s AT s
    if AT ≤ u_score_s s then
      (c.1 + 1, if a_DT = argmax (prob_s s) then c.2 + 1 else c.2)
    else c

/-- Embedding of `method_simple_counting` (modeling_mqag.py, lines 11-38). -/
def method_simple_counting (prob : List ℚ) (u_score : ℚ)
    (prob_s : ℕ → List ℚ) (u_score_s : ℕ → ℚ) (num_samples : ℕ) (AT : ℚ) : ℚ :=
  if u_score < AT then 1/2
  else
    let a_DT := argmax prob
    let c := loopSC a_DT prob_s u_score_s AT num_samples
    if c.1 = 0 then 1/2
    else ((c.1 : ℚ) - (c.2 : ℚ)) / (c.1 : ℚ)

/-- The accumulation loop of `method_vanilla_bayes`: unit-vote match and
mismatch counts over the samples passing the answerability gate
`u_score_s[s] >= AT`. -/
def loopVB (a_DT : ℕ) (prob_s : ℕ → List ℚ) (u_score_s : ℕ → ℚ) (AT : ℚ) :
    ℕ → ℕ × ℕ
  | 0 => (0, 0)
  | s + 1 =>
    let c := loopVB a_DT prob_s u_score_s AT s
    if AT ≤ u_score_s s then
      if a_DT = argmax (prob_s s) then (c.1 + 1, c.2) else (c.1, c.2 + 1)
    else c

/-- Embedding of `method_vanilla_bayes` (modeling_mqag.py, lines 40-66).
Match/mismatch counts are integers, so the gamma powers are ordinary monoid
powers over ℚ. -/
def method_vanilla_bayes (prob : List ℚ) (u_score : ℚ)
    (prob_s : ℕ → List ℚ) (u_score_s : ℕ → ℚ) (num_samples : ℕ)
    (beta1 beta2 AT : ℚ) : ℚ :=
  if u_score < AT then 1/2
  else
    let a_DT := argmax prob
    let c := loopVB a_DT prob_s u_score_s AT num_samples
    let gamma1 := beta2 / (1 - beta1)
    let gamma2 := beta1 / (1 - beta2)
    gamma2 ^ c.2 / (gamma1 ^ c.1 + gamma2 ^ c.2)

/-- The accumulation loop of `method_bayes_with_alpha`: soft match and
mismatch counts, each sample contributing its own answerability score
`u_score_s[s]` to one of the two buckets, with no gating. -/
def loopBA (a_DT : ℕ) (prob_s : ℕ → List ℚ) (u_score_s : ℕ → ℚ) :
    ℕ → ℚ × ℚ
  | 0 => (0, 0)
  | s + 1 =>
    let c := loopBA a_DT prob_s u_score_s s
    if a_DT = argmax (prob_s s) then (c.1 + u_score_s s, c.2)
    else (c.1, c.2 + u_score_s s)

/-- The closed-form score of the bayes methods (modeling_mqag.py, lines
89-91): `gamma2^mismatch / (gamma1^match + gamma2^mismatch)` with
`gamma1 = beta2/(1-beta1)`, `gamma2 = beta1/(1-beta2)`.  Exponents are real
(soft counts), so `^` is real exponentiation. -/
noncomputable def bayesWithAlphaScore (beta1 beta2 cmatch cmismatch : ℝ) : ℝ :=
  let gamma1 := beta2 / (1 - beta1)
  let gamma2 := beta1 / (1 - beta2)
  gamma2 ^ cmismatch / (gamma1 ^ cmatch + gamma2 ^ cmismatch)

/-- Embedding of `method_bayes_with_alpha` (modeling_mqag.py, lines 68-92).
The `u_score` argument is received (as in the Python signature) but never
read. -/
noncomputable def method_bayes_with_alpha (prob : List ℚ) (u_score : ℚ)
    (prob_s : ℕ → List ℚ) (u_score_s : ℕ → ℚ) (num_samples : ℕ)
    (beta1 beta2 : ℚ) : ℝ :=
  let a_DT := argmax prob
  let c := loopBA a_DT prob_s u_score_s num_samples
  bayesWithAlphaScore (beta1 : ℝ) (beta2 : ℝ) ((c.1 : ℚ) : ℝ) ((c.2 : ℚ) : ℝ)

/-- Number of samples `s < n` passing the answerability gate
`u_score_s[s] >= AT` (the spec's good_sample count). -/
def countGood (u_score_s : ℕ → ℚ) (AT : ℚ) (n : ℕ) : ℕ :=
  ((List.range n).filter (fun s => decide (AT ≤ u_score_s s))).length

/-- Number of gated samples whose argmax agrees with `a_DT` (the spec's
match count). -/
def countMatchGated (a_DT : ℕ) (prob_s : ℕ → List ℚ) (u_score_s : ℕ → ℚ)
    (AT : ℚ) (n : ℕ) : ℕ :=
  ((List.range n).filter
    (fun s => decide (AT ≤ u_score_s s) && decide (argmax (prob_s s) = a_DT))).length

/-- Number of gated samples whose argmax disagrees with `a_DT` (the spec's
mismatch count). -/
def countMismatchGated (a_DT : ℕ) (prob_s : ℕ → List ℚ) (u_score_s : ℕ → ℚ)
    (AT : ℚ) (n : ℕ) : ℕ :=
  ((List.range n).filter
    (fun s => decide (AT ≤ u_score_s s) && !decide (argmax (prob_s s) = a_DT))).length

/-- Soft match count: the sum of `u_score_s[s]` over agreeing samples. -/
def softMatch (a_DT : ℕ) (prob_s : ℕ → List ℚ) (u_score_s : ℕ → ℚ) (n : ℕ) : ℚ :=
  ∑ s ∈ Finset.range n, if argmax (prob_s s) = a_DT then u_score_s s else 0

/-- Soft mismatch count: the sum of `u_score_s[s]` over disagreeing
samples. -/
def softMismatch (a_DT : ℕ) (prob_s : ℕ → List ℚ) (u_score_s : ℕ → ℚ) (n : ℕ) : ℚ :=
  ∑ s ∈ Finset.range n, if argmax (prob_s s) = a_DT then 0 else u_score_s s

/-- A generated multiple-choice question: the dict
`{question: ..., options: ...}` assembled by
`question_generation_sentence_level`. -/
structure QuestionItem where
  question : String
  options : List String
deriving DecidableEq

/-- One step per unit of fuel of the `while len(options) < 4:
options.append(options[-1])` loop of `question_generation_sentence_level`
(modeling_mqag.py, lines 152-154).  Each pass through the loop grows the list
by one, so at most 4 iterations ever run; carrying that bound as structural
fuel makes the definition kernel-reducible while computing the same list as
the unbounded loop.  `options[-1]` is modelled by `getLastD` (the loop is
only reached with a non-empty list). -/
def padOptionsGo : ℕ → List String → List String
  | 0, options => options
  | fuel + 1, options =>
    if options.length < 4 then padOptionsGo fuel (options ++ [options.getLastD ""])
    else options

/-- The padding loop: repeat the last option while fewer than 4 options are
present. -/
def padOptions (options : List String) : List String :=
  padOptionsGo 4 options

/-- Embedding of `question_generation_sentence_level` (modeling_mqag.py,
lines 97-161).  The two sampling generation models are opaque services and
the decode / pad-and-eos stripping / sentinel regex / separator split / strip
pipeline applied to their raw output is tokenizer plumbing, so the oracles
give the resulting string lists per attempt index: `g1_split q` is the
`question_answer_split` list of attempt `q` (fields stripped), and
`g2_distractors q` the stripped distractor list of attempt `q`.  The
validity check (exactly two fields, otherwise the attempt is silently
discarded), the option assembly `[answer] + distractors` and the padding
loop follow the source. -/
def question_generation_sentence_level (g1_split : ℕ → List String)
    (g2_distractors : ℕ → List String) (num_questions_per_sent : ℕ) :
    List QuestionItem :=
  (List.range num_questions_per_sent).foldl
    (fun questions q =>
      let question_answer_split := g1_split q
      if question_answer_split.length = 2 then
        let question := question_answer_split.getD 0 ""
        let answer := question_answer_split.getD 1 ""
        let distractors := g2_distractors q
        let options := padOptions ([answer] ++ distractors)
        questions ++ [{ question := question, options := options }]
      else questions)
    []

/-- The validated scoring method together with the keyword parameters
`predict` reads at the point of use (`kwargs['AT']`, `kwargs['beta1']`,
`kwargs['beta2']`); the three constructors are the three names accepted by
the assert at the top of `predict`. -/
inductive ScoringMethod
  | counting (AT : ℚ)
  | bayes (beta1 beta2 AT : ℚ)
  | bayesWithAlpha (beta1 beta2 : ℚ)

/-- The per-question body of `predict` (modeling_mqag.py, lines 268-303):
compute `prob`/`u_score` against the passage and `prob_s`/`u_score_s`
against each sampled passage, then dispatch on the scoring method.  The
answering and answerability models are oracles from the textual inputs to
their numeric outputs. -/
noncomputable def questionScore
    (answering : String → List String → String → List ℚ)
    (answerability : String → String → ℚ)
    (passage : String) (sampled_passages : List String)
    (method : ScoringMethod) (qi : QuestionItem) : ℝ :=
  let num_samples := sampled_passages.length
  let prob := answering qi.question qi.options passage
  let u_score := answerability qi.question passage
  let prob_s := fun si => answering qi.question qi.options (sampled_passages.getD si "")
  let u_score_s := fun si => answerability qi.question (sampled_passages.getD si "")
  match method with
  | .counting AT =>
      ((method_simple_counting prob u_score prob_s u_score_s num_samples AT : ℚ) : ℝ)
  | .bayes beta1 beta2 AT =>
      ((method_vanilla_bayes prob u_score prob_s u_score_s num_samples beta1 beta2 AT : ℚ) : ℝ)
  | .bayesWithAlpha beta1 beta2 =>
      method_bayes_with_alpha prob u_score prob_s u_score_s num_samples beta1 beta2

/-- np.mean over a list of scores: NaN on the empty list (modelled as
`none`), otherwise the arithmetic mean. -/
noncomputable def npMean (l : List ℝ) : Option ℝ :=
  if l = [] then none else some (l.sum / (l.length : ℝ))

/-- The per-sentence body of `predict` (modeling_mqag.py, lines 257-305):
generate questions for the sentence, score each, and take np.mean of the
per-question scores.  The question generator oracle stands for
`question_generation_sentence_level` with the models, passage and
`num_questions_per_sent` fixed. -/
noncomputable def sentenceScore (questionGen : String → List QuestionItem)
    (answering : String → List String → String → List ℚ)
    (answerability : String → String → ℚ)
    (passage : String) (sampled_passages : List String)
    (method : ScoringMethod) (sentence : String) : Option ℝ :=
  let questions := questionGen sentence
  let scores := questions.map
    (questionScore answering answerability passage sampled_passages method)
  npMean scores

/-- Embedding of `SelfCheckMQAG.predict` (modeling_mqag.py, lines 236-307):
one score per input sentence, in input order. -/
noncomputable def predict (questionGen : String → List QuestionItem)
    (answering : String → List String → String → List ℚ)
    (answerability : String → String → ℚ)
    (sentences : List String) (passage : String)
    (sampled_passages : List String) (method : ScoringMethod) :
    List (Option ℝ) :=
  sentences.map
    (sentenceScore questionGen answering answerability passage sampled_passages method)

/-! Helper lemmas: the accumulation loops compute the filter counts and
gated sums, and the padding loop's length bounds. -/

lemma loopSC_eq (a_DT : ℕ) (prob_s : ℕ → List ℚ) (u_score_s : ℕ → ℚ) (AT : ℚ)
    (n : ℕ) :
    loopSC a_DT prob_s u_score_s AT n =
      (countGood u_score_s AT n, countMatchGated a_DT prob_s u_score_s AT n) := by
  induction n with
  | zero => simp [loopSC, countGood, countMatchGated]
  | succ n ih =>
    simp only [loopSC, ih, countGood, countMatchGated, List.range_succ,
      List.filter_append, List.length_append, List.filter_cons, List.filter_nil]
    by_cases h1 : AT ≤ u_score_s n
    · by_cases h2 : a_DT = argmax (prob_s n)
      · simp [h1, h2]
      · have h2' : ¬ (argmax (prob_s n) = a_DT) := fun h => h2 h.symm
        simp [h1, h2, h2']
    · simp [h1]

lemma loopVB_eq (a_DT : ℕ) (prob_s : ℕ → List ℚ) (u_score_s : ℕ → ℚ) (AT : ℚ)
    (n : ℕ) :
    loopVB a_DT prob_s u_score_s AT n =
      (countMatchGated a_DT prob_s u_score_s AT n,
        countMismatchGated a_DT prob_s u_score_s AT n) := by
  induction n with
  | zero => simp [loopVB, countMatchGated, countMismatchGated]
  | succ n ih =>
    simp only [loopVB, ih, countMatchGated, countMismatchGated, List.range_succ,
      List.filter_append, List.length_append, List.filter_cons, List.filter_nil]
    by_cases h1 : AT ≤ u_score_s n
    · by_cases h2 : a_DT = argmax (prob_s n)
      · simp [h1, h2]
      · have h2' : ¬ (argmax (prob_s n) = a_DT) := fun h => h2 h.symm
        simp [h1, h2, h2']
    · simp [h1]

lemma loopBA_eq (a_DT : ℕ) (prob_s : ℕ → List ℚ) (u_score_s : ℕ → ℚ) (n : ℕ) :
    loopBA a_DT prob_s u_score_s n =
      (softMatch a_DT prob_s u_score_s n, softMismatch a_DT prob_s u_score_s n) := by
  induction n with
  | zero => simp [loopBA, softMatch, softMismatch]
  | succ n ih =>
    simp only [loopBA, ih, softMatch, softMismatch, Finset.sum_range_succ]
    by_cases h2 : a_DT = argmax (prob_s n)
    · rw [if_pos h2, if_pos h2.symm, if_pos h2.symm]
      simp
    · have h2' : ¬ (argmax (prob_s n) = a_DT) := fun h => h2 h.symm
      rw [if_neg h2, if_neg h2', if_neg h2']
      simp

lemma padOptionsGo_length_ge (fuel : ℕ) :
    ∀ l : List String, 4 ≤ l.length + fuel → 4 ≤ (padOptionsGo fuel l).length := by
  induction fuel with
  | zero => intro l h; simpa [padOptionsGo] using h
  | succ fuel ih =>
    intro l h
    simp only [padOptionsGo]
    split
    · apply ih
      simp only [List.length_append, List.length_cons, List.length_nil]
      omega
    · omega

lemma padOptionsGo_length_le (fuel : ℕ) :
    ∀ l : List String, l.length ≤ 4 → (padOptionsGo fuel l).length ≤ 4 := by
  induction fuel with
  | zero => intro l h; simpa [padOptionsGo] using h
  | succ fuel ih =>
    intro l h
    simp only [padOptionsGo]
    split
    · apply ih
      simp only [List.length_append, List.length_cons, List.length_nil]
      omega
    · exact h

lemma padOptions_length_ge (l : List String) : 4 ≤ (padOptions l).length :=
  padOptionsGo_length_ge 4 l (by omega)

lemma padOptions_length_eq (l : List String) (h : l.length ≤ 4) :
    (padOptions l).length = 4 :=
  le_antisymm (padOptionsGo_length_le 4 l h) (padOptions_length_ge l)

lemma question_generation_succ (g1_split g2_distractors : ℕ → List String)
    (n : ℕ) :
    question_generation_sentence_level g1_split g2_distractors (n + 1) =
      if (g1_split n).length = 2 then
        question_generation_sentence_level g1_split g2_distractors n ++
          [{ question := (g1_split n).getD 0 "",
             options := padOptions ([(g1_split n).getD 1 ""] ++ g2_distractors n) }]
      else question_generation_sentence_level g1_split g2_distractors n := by
  simp only [question_generation_sentence_level, List.range_succ,
    List.foldl_append, List.foldl_cons, List.foldl_nil]

/-! The claims. -/

/-- C2: for every prob, u_score, prob_s, u_score_s, num_samples and AT,
`method_simple_counting` returns 0.5 if u_score < AT; otherwise, with
a_DT = argmax(prob), good_sample = the number of samples s < num_samples
with u_score_s[s] >= AT and match = the number of those with
argmax(prob_s[s]) == a_DT, it returns 0.5 if good_sample == 0 and
(good_sample - match) / good_sample otherwise. -/
theorem method_simple_counting_spec (prob : List ℚ) (u_score : ℚ)
    (prob_s : ℕ → List ℚ) (u_score_s : ℕ → ℚ) (num_samples : ℕ) (AT : ℚ) :
    method_simple_counting prob u_score prob_s u_score_s num_samples AT =
      if u_score < AT then 1/2
      else if countGood u_score_s AT num_samples = 0 then 1/2
      else
        ((countGood u_score_s AT num_samples : ℚ) -
            (countMatchGated (argmax prob) prob_s u_score_s AT num_samples : ℚ)) /
          (countGood u_score_s AT num_samples : ℚ) := by
  simp only [method_simple_counting, loopSC_eq]

/-- C3: for beta1, beta2 in (0,1), `method_vanilla_bayes` returns 0.5 when
u_score < AT; otherwise it counts match and mismatch as unit votes only over
samples with u_score_s[s] >= AT (unanswerable samples excluded from both
buckets, counts not divided by good_sample), computes
gamma1 = beta2/(1-beta1) and gamma2 = beta1/(1-beta2), and returns
gamma2^mismatch / (gamma1^match + gamma2^mismatch). -/
theorem method_vanilla_bayes_spec (prob : List ℚ) (u_score : ℚ)
    (prob_s : ℕ → List ℚ) (u_score_s : ℕ → ℚ) (num_samples : ℕ)
    (beta1 beta2 AT : ℚ) (hb1 : 0 < beta1) (hb1' : beta1 < 1)
    (hb2 : 0 < beta2) (hb2' : beta2 < 1) :
    method_vanilla_bayes prob u_score prob_s u_score_s num_samples beta1 beta2 AT =
      if u_score < AT then 1/2
      else
        (beta1 / (1 - beta2)) ^
            countMismatchGated (argmax prob) prob_s u_score_s AT num_samples /
          ((beta2 / (1 - beta1)) ^
              countMatchGated (argmax prob) prob_s u_score_s AT num_samples +
            (beta1 / (1 - beta2)) ^
              countMismatchGated (argmax prob) prob_s u_score_s AT num_samples) := by
  simp only [method_vanilla_bayes, loopVB_eq]

/-- Witness for C3 at a concrete input. -/
theorem method_vanilla_bayes_spec_witness :
    method_vanilla_bayes [1, 0, 0, 0] 1 (fun _ => [1, 0, 0, 0]) (fun _ => 1) 1
        (1/2) (1/2) 0 =
      if (1 : ℚ) < 0 then 1/2
      else
        ((1:ℚ)/2 / (1 - 1/2)) ^
            countMismatchGated (argmax [1, 0, 0, 0]) (fun _ => [1, 0, 0, 0])
              (fun _ => 1) 0 1 /
          (((1:ℚ)/2 / (1 - 1/2)) ^
              countMatchGated (argmax [1, 0, 0, 0]) (fun _ => [1, 0, 0, 0])
                (fun _ => 1) 0 1 +
            ((1:ℚ)/2 / (1 - 1/2)) ^
              countMismatchGated (argmax [1, 0, 0, 0]) (fun _ => [1, 0, 0, 0])
                (fun _ => 1) 0 1) :=
  method_vanilla_bayes_spec [1, 0, 0, 0] 1 (fun _ => [1, 0, 0, 0]) (fun _ => 1) 1
    (1/2) (1/2) 0 (by norm_num) (by norm_num) (by norm_num) (by norm_num)

/-- C4: `method_bayes_with_alpha` applies no answerability gating: every
sample contributes, and match/mismatch are soft counts where each sample s
adds its own u_score_s[s] (not 1) to match if argmax(prob_s[s]) ==
argmax(prob) and to mismatch otherwise, after which the gamma1/gamma2
formula gamma2^mismatch / (gamma1^match + gamma2^mismatch) is returned. -/
theorem method_bayes_with_alpha_spec (prob : List ℚ) (u_score : ℚ)
    (prob_s : ℕ → List ℚ) (u_score_s : ℕ → ℚ) (num_samples : ℕ)
    (beta1 beta2 : ℚ) :
    method_bayes_with_alpha prob u_score prob_s u_score_s num_samples beta1 beta2 =
      bayesWithAlphaScore (beta1 : ℝ) (beta2 : ℝ)
        ((softMatch (argmax prob) prob_s u_score_s num_samples : ℚ) : ℝ)
        ((softMismatch (argmax prob) prob_s u_score_s num_samples : ℚ) : ℝ) := by
  simp only [method_bayes_with_alpha, loopBA_eq]

/-- C8: all three scoring methods return the neutral score 0.5 when
num_samples = 0, for every prob, u_score and method parameters. -/
theorem methods_zero_samples (prob : List ℚ) (u_score : ℚ)
    (prob_s : ℕ → List ℚ) (u_score_s : ℕ → ℚ) (AT beta1 beta2 : ℚ) :
    method_simple_counting prob u_score prob_s u_score_s 0 AT = 1/2 ∧
    method_vanilla_bayes prob u_score prob_s u_score_s 0 beta1 beta2 AT = 1/2 ∧
    method_bayes_with_alpha prob u_score prob_s u_score_s 0 beta1 beta2 = 1/2 := by
  refine ⟨?_, ?_, ?_⟩
  · simp only [method_simple_counting, loopSC]
    split <;> simp
  · simp only [method_vanilla_bayes, loopVB]
    split
    · rfl
    · norm_num
  · simp only [method_bayes_with_alpha, loopBA, bayesWithAlphaScore]
    norm_num

/-- C10: the result of `method_bayes_with_alpha` does not depend on the
true-passage answerability argument u_score: two calls differing only in
u_score return the same score. -/
theorem method_bayes_with_alpha_ignores_u_score (prob : List ℚ)
    (prob_s : ℕ → List ℚ) (u_score_s : ℕ → ℚ) (num_samples : ℕ)
    (beta1 beta2 : ℚ) (u_score u_score' : ℚ) :
    method_bayes_with_alpha prob u_score prob_s u_score_s num_samples beta1 beta2 =
      method_bayes_with_alpha prob u_score' prob_s u_score_s num_samples beta1 beta2 :=
  rfl

/-- C5 (counterexample): for beta1 = beta2 = 1/5 (both in (0,1)) the score
formula is strictly decreasing, not non-decreasing, in the mismatch soft
count: raising the mismatch count from 0 to 1 at match count 0 lowers the
score from 1/2 to 1/5. -/
theorem bayesWithAlphaScore_not_monotone :
    ((0 : ℝ) < 1/5 ∧ (1/5 : ℝ) < 1) ∧
      bayesWithAlphaScore (1/5) (1/5) 0 1 < bayesWithAlphaScore (1/5) (1/5) 0 0 := by
  refine ⟨⟨by norm_num, by norm_num⟩, ?_⟩
  simp only [bayesWithAlphaScore]
  rw [Real.rpow_zero, Real.rpow_one]
  norm_num

/-- C5 (amended): for beta1, beta2 in (0,1) with 1 <= beta1 + beta2
(equivalently gamma1 >= 1 and gamma2 >= 1), the score
gamma2^mismatch / (gamma1^match + gamma2^mismatch) is monotonically
non-decreasing in the mismatch soft count holding the match soft count
fixed, and non-increasing in the match soft count holding the mismatch soft
count fixed.  Without 1 <= beta1 + beta2 both monotonicities reverse. -/
theorem bayesWithAlphaScore_monotone (beta1 beta2 : ℝ)
    (hb1 : 0 < beta1) (hb1' : beta1 < 1) (hb2 : 0 < beta2) (hb2' : beta2 < 1)
    (hsum : 1 ≤ beta1 + beta2) :
    (∀ m mm mm' : ℝ, mm ≤ mm' →
      bayesWithAlphaScore beta1 beta2 m mm ≤ bayesWithAlphaScore beta1 beta2 m mm') ∧
    (∀ m m' mm : ℝ, m ≤ m' →
      bayesWithAlphaScore beta1 beta2 m' mm ≤ bayesWithAlphaScore beta1 beta2 m mm) := by
  have h1b1 : (0 : ℝ) < 1 - beta1 := by linarith
  have h1b2 : (0 : ℝ) < 1 - beta2 := by linarith
  have hg1p : 0 < beta2 / (1 - beta1) := by positivity
  have hg2p : 0 < beta1 / (1 - beta2) := by positivity
  have hg1 : 1 ≤ beta2 / (1 - beta1) := (one_le_div h1b1).mpr (by linarith)
  have hg2 : 1 ≤ beta1 / (1 - beta2) := (one_le_div h1b2).mpr (by linarith)
  constructor
  · intro m mm mm' h
    simp only [bayesWithAlphaScore]
    have ha : 0 < (beta2 / (1 - beta1)) ^ m := Real.rpow_pos_of_pos hg1p m
    have ht : 0 < (beta1 / (1 - beta2)) ^ mm := Real.rpow_pos_of_pos hg2p mm
    have ht' : 0 < (beta1 / (1 - beta2)) ^ mm' := Real.rpow_pos_of_pos hg2p mm'
    have hle : (beta1 / (1 - beta2)) ^ mm ≤ (beta1 / (1 - beta2)) ^ mm' :=
      Real.rpow_le_rpow_of_exponent_le hg2 h
    rw [div_le_div_iff₀ (by linarith) (by linarith)]
    nlinarith [mul_le_mul_of_nonneg_right hle ha.le]
  · intro m m' mm h
    simp only [bayesWithAlphaScore]
    have ha : 0 < (beta2 / (1 - beta1)) ^ m := Real.rpow_pos_of_pos hg1p m
    have ht : 0 < (beta1 / (1 - beta2)) ^ mm := Real.rpow_pos_of_pos hg2p mm
    have hle : (beta2 / (1 - beta1)) ^ m ≤ (beta2 / (1 - beta1)) ^ m' :=
      Real.rpow_le_rpow_of_exponent_le hg1 h
    apply div_le_div_of_nonneg_left ht.le (by linarith)
    linarith

/-- Witness for C5 at a concrete input: beta1 = beta2 = 4/5, match count 1,
mismatch counts 1 <= 2. -/
theorem bayesWithAlphaScore_monotone_witness :
    bayesWithAlphaScore (4/5) (4/5) 1 1 ≤ bayesWithAlphaScore (4/5) (4/5) 1 2 :=
  (bayesWithAlphaScore_monotone (4/5) (4/5) (by norm_num) (by norm_num)
    (by norm_num) (by norm_num) (by norm_num)).1 1 1 2 (by norm_num)

/-- C6 (counterexample): in the scenario beta1 = 1/5, beta2 = 4/5 with
match = 3 and mismatch = 0, the bayes score is 1/2, but
gamma1 = beta2/(1-beta1) = (4/5)/(4/5) is not greater than 1, refuting the
claimed gamma1 > 1. -/
theorem method_vanilla_bayes_scenario_gamma_not_gt_one :
    method_vanilla_bayes [1, 0, 0, 0] 1 (fun _ => [1, 0, 0, 0]) (fun _ => 1) 3
        (1/5) (4/5) 0 = 1/2 ∧
    ¬ (1 < (4:ℚ)/5 / (1 - 1/5)) := by
  have hc : loopVB (argmax [1, 0, 0, 0]) (fun _ => [1, 0, 0, 0]) (fun _ => 1)
      (0 : ℚ) 3 = (3, 0) := rfl
  constructor
  · simp only [method_vanilla_bayes, hc]
    norm_num
  · norm_num

/-- C6 (amended): in the scenario beta1 = 1/5, beta2 = 4/5, match = 3,
mismatch = 0, the bayes score equals the exact closed form
1/(gamma1^3 + 1) with gamma1 = beta2/(1-beta1) = 1 (not > 1), giving
exactly 1/2: a positive number, not exactly 0. -/
theorem method_vanilla_bayes_scenario :
    method_vanilla_bayes [1, 0, 0, 0] 1 (fun _ => [1, 0, 0, 0]) (fun _ => 1) 3
        (1/5) (4/5) 0 = 1 / (((4:ℚ)/5 / (1 - 1/5)) ^ 3 + 1) ∧
    (4:ℚ)/5 / (1 - 1/5) = 1 ∧
    method_vanilla_bayes [1, 0, 0, 0] 1 (fun _ => [1, 0, 0, 0]) (fun _ => 1) 3
        (1/5) (4/5) 0 = 1/2 ∧
    (0:ℚ) < method_vanilla_bayes [1, 0, 0, 0] 1 (fun _ => [1, 0, 0, 0])
        (fun _ => 1) 3 (1/5) (4/5) 0 ∧
    method_vanilla_bayes [1, 0, 0, 0] 1 (fun _ => [1, 0, 0, 0]) (fun _ => 1) 3
        (1/5) (4/5) 0 ≠ 0 := by
  have hc : loopVB (argmax [1, 0, 0, 0]) (fun _ => [1, 0, 0, 0]) (fun _ => 1)
      (0 : ℚ) 3 = (3, 0) := rfl
  have hval : method_vanilla_bayes [1, 0, 0, 0] 1 (fun _ => [1, 0, 0, 0])
      (fun _ => 1) 3 (1/5) (4/5) 0 = 1/2 := by
    simp only [method_vanilla_bayes, hc]
    norm_num
  refine ⟨?_, by norm_num, hval, ?_, ?_⟩
  · rw [hval]; norm_num
  · rw [hval]; norm_num
  · rw [hval]; norm_num

/-- C7 (counterexample): when the distractor service returns 4 distractors,
the assembled options list has 5 entries, not exactly 4: the padding loop
only pads up, it never truncates. -/
theorem question_generation_five_options :
    question_generation_sentence_level (fun _ => ["Q", "A"])
        (fun _ => ["B", "C", "D", "E"]) 1
      = [{ question := "Q", options := ["A", "B", "C", "D", "E"] }] ∧
    ¬ (∀ qi ∈ question_generation_sentence_level (fun _ => ["Q", "A"])
          (fun _ => ["B", "C", "D", "E"]) 1, qi.options.length = 4) := by
  have heq : question_generation_sentence_level (fun _ => ["Q", "A"])
      (fun _ => ["B", "C", "D", "E"]) 1
      = [{ question := "Q", options := ["A", "B", "C", "D", "E"] }] := rfl
  refine ⟨heq, fun h => ?_⟩
  have h5 := h { question := "Q", options := ["A", "B", "C", "D", "E"] }
    (by rw [heq]; exact List.mem_singleton.mpr rfl)
  simp at h5

/-- C7 (amended): every QuestionItem produced by the generator has at least
4 options (options = [answer] + distractors padded by repeating the last
option while fewer than 4 are present), and the assembled options list has
exactly 4 entries whenever the distractor service returned at most 3
distractors. -/
theorem question_generation_options_length
    (g1_split g2_distractors : ℕ → List String) (n : ℕ) :
    (∀ qi ∈ question_generation_sentence_level g1_split g2_distractors n,
      4 ≤ qi.options.length) ∧
    (∀ answer : String, ∀ distractors : List String, distractors.length ≤ 3 →
      (padOptions ([answer] ++ distractors)).length = 4) := by
  constructor
  · induction n with
    | zero => intro qi hqi; simp [question_generation_sentence_level] at hqi
    | succ n ih =>
      intro qi hqi
      rw [question_generation_succ] at hqi
      by_cases h2 : (g1_split n).length = 2
      · rw [if_pos h2] at hqi
        rcases List.mem_append.mp hqi with h | h
        · exact ih qi h
        · have hq := List.mem_singleton.mp h
          subst hq
          simpa using padOptions_length_ge _
      · rw [if_neg h2] at hqi
        exact ih qi hqi
  · intro answer distractors h
    apply padOptions_length_eq
    simp only [List.length_append, List.length_cons, List.length_nil]
    omega

/-- Witness for C7 at a concrete input: one attempt with a valid two-field
generation and 3 distractors. -/
theorem question_generation_options_length_witness :
    4 ≤ ({ question := "Q", options := ["A", "B", "C", "D"] } : QuestionItem).options.length ∧
    (padOptions (["A"] ++ ["B"])).length = 4 := by
  constructor
  · exact (question_generation_options_length (fun _ => ["Q", "A"])
      (fun _ => ["B", "C", "D"]) 1).1
      { question := "Q", options := ["A", "B", "C", "D"] }
      (List.mem_singleton.mpr rfl)
  · exact (question_generation_options_length (fun _ => ["Q", "A"])
      (fun _ => ["B", "C", "D"]) 1).2 "A" ["B"] (by norm_num)

/-- C9: `predict` returns one score per input sentence, the i-th output
being the score of the i-th input sentence (order preserved). -/
theorem predict_length_order (questionGen : String → List QuestionItem)
    (answering : String → List String → String → List ℚ)
    (answerability : String → String → ℚ) (sentences : List String)
    (passage : String) (sampled_passages : List String)
    (method : ScoringMethod) :
    (predict questionGen answering answerability sentences passage
        sampled_passages method).length = sentences.length ∧
    ∀ i : ℕ,
      (predict questionGen answering answerability sentences passage
          sampled_passages method).get? i
        = (sentences.get? i).map
            (sentenceScore questionGen answering answerability passage
              sampled_passages method) := by
  constructor
  · simp [predict]
  · intro i
    simp [predict, List.get?_map]

/-- C1 (counterexample): with zero valid QuestionItems generated for a
sentence, the sentence-level score is the mean of an empty list — NaN
(modelled `none`), not the neutral 0.5 the claim states. -/
theorem sentenceScore_empty_questions_nan :
    sentenceScore (fun _ => []) (fun _ _ _ => []) (fun _ _ => 0) "p" []
        (ScoringMethod.counting (1/2)) "s" = none ∧
    (none : Option ℝ) ≠ some (1/2) :=
  ⟨rfl, by simp⟩

/-- C1 (amended): if zero valid QuestionItems are generated for a sentence,
the sentence-level score is np.mean of an empty list, i.e. NaN (undefined,
modelled `none`); the code substitutes no 0.5 fallback. -/
theorem sentenceScore_empty_questions (questionGen : String → List QuestionItem)
    (answering : String → List String → String → List ℚ)
    (answerability : String → String → ℚ) (passage : String)
    (sampled_passages : List String) (method : ScoringMethod)
    (sentence : String) (h : questionGen sentence = []) :
    sentenceScore questionGen answering answerability passage sampled_passages
      method sentence = none := by
  simp [sentenceScore, h, npMean]

/-- Witness for C1 at a concrete input. -/
theorem sentenceScore_empty_questions_witness :
    sentenceScore (fun _ => []) (fun _ _ _ => []) (fun _ _ => 0) "passage" ["sample"]
      (ScoringMethod.bayesWithAlpha (4/5) (4/5)) "sentence" = none :=
  sentenceScore_empty_questions _ _ _ _ _ _ _ rfl

end SelfCheckMQAG
